import Mathlib

/-!
Shallow embedding of the two server variants in `src/server.js`:
the sqlite-backed variant (first half of the file) and the flat-file
JSON variant (second half).  JavaScript numbers are modelled as `ℚ`
(`Math.round(x)` becomes `⌊x + 1/2⌋`), JSON strings as `String`,
nullable/omitted fields as `Option`.  Request bodies are modelled as
records of optional, well-typed fields (a key that is absent is `none`);
each handler is a pure function from its inputs and the current store to
a result paired with the next store.
-/

set_option linter.unusedVariables false

/-- JavaScript `Math.round`: round half toward positive infinity. -/
def jsRound (x : ℚ) : ℤ := ⌊x + 1/2⌋

/-- `Math.round(x * 100) / 100`, the 2-decimal rounding used by the sqlite
variant's tax computation. -/
def round2 (x : ℚ) : ℚ := (jsRound (x * 100) : ℚ) / 100

/-- JavaScript falsiness of an optional string: absent (`undefined`/`null`)
or the empty string. -/
def falsyStr (o : Option String) : Bool := o.isNone || o == some ""

/-- JavaScript falsiness of an optional number: absent or zero. -/
def falsyNum (o : Option ℚ) : Bool := o.isNone || o == some 0

/-- The JS pattern `x || null` applied to an optional string: a falsy value
becomes `null`. -/
def orNullStr (o : Option String) : Option String := if falsyStr o then none else o

namespace Sqlite

/-- A row of the `settings` table (sqlite variant). -/
structure Settings where
  currency : String
  tax_income : ℚ
  tax_expense : ℚ
  monthly_expense_cap : ℚ
deriving Repr, DecidableEq

/-- A row of the `transactions` table. `created_at` is modelled as a server
clock tick (the sqlite `datetime('now')` text). -/
structure Txn where
  id : ℕ
  user_id : ℕ
  date : String
  type : String
  category : String
  base : ℚ
  tax : ℚ
  total : ℚ
  employee : Option String
  notes : Option String
  created_at : ℕ
deriving Repr, DecidableEq

/-- A row of the `debts` table. -/
structure Debt where
  id : ℕ
  user_id : ℕ
  date : String
  employee : String
  kind : String
  amount : ℚ
  delta : ℚ
  notes : Option String
  created_at : ℕ
deriving Repr, DecidableEq

/-- The sqlite database: table contents plus the AUTOINCREMENT sequences and
the server clock used for `created_at`. -/
structure DB where
  settings : List (ℕ × Settings)
  transactions : List Txn
  debts : List Debt
  txSeq : ℕ
  debtSeq : ℕ
  now : ℕ
deriving Repr, DecidableEq

/-- Outcomes of the sqlite handlers that can fail. -/
inductive Err where
  /-- 400 `{error:'Missing fields'}` -/
  | missingFields
  /-- 404 `{error:'NOT_FOUND'}` -/
  | notFound
  /-- the `INSERT`/`UPDATE` is rejected by a SQL `CHECK` constraint; the
  handler has no try/catch, so the rejection surfaces as an unhandled
  failure, not as a JSON error response -/
  | checkViolation
  /-- no `settings` row for the tenant: the handler dereferences `s` and
  crashes (unreachable for registered users) -/
  | noSettings
deriving Repr, DecidableEq

/-- `SELECT ... FROM settings WHERE user_id=?`. -/
def DB.getSettings (st : DB) (uid : ℕ) : Option Settings :=
  (st.settings.find? (fun p => p.1 == uid)).map (·.2)

/-- `ORDER BY date DESC, created_at DESC` as a total preorder on rows. -/
def txLE (a b : Txn) : Prop :=
  b.date < a.date ∨ (b.date = a.date ∧ b.created_at ≤ a.created_at)

instance : DecidableRel txLE := fun a b => by
  unfold txLE; infer_instance

instance : IsTotal Txn txLE := by
  constructor
  intro a b
  rcases lt_trichotomy a.date b.date with h | h | h
  · exact Or.inr (Or.inl h)
  · rcases Nat.le_total b.created_at a.created_at with hc | hc
    · exact Or.inl (Or.inr ⟨h.symm, hc⟩)
    · exact Or.inr (Or.inr ⟨h, hc⟩)
  · exact Or.inl (Or.inl h)

instance : IsTrans Txn txLE := by
  constructor
  intro a b c hab hbc
  rcases hab with h1 | ⟨h1, h1c⟩
  · rcases hbc with h2 | ⟨h2, h2c⟩
    · exact Or.inl (h2.trans h1)
    · exact Or.inl (h2 ▸ h1)
  · rcases hbc with h2 | ⟨h2, h2c⟩
    · exact Or.inl (h1 ▸ h2)
    · exact Or.inr ⟨h2.trans h1, h2c.trans h1c⟩

/-- `ORDER BY date ASC, created_at ASC` for debts. -/
def debtLE (a b : Debt) : Prop :=
  a.date < b.date ∨ (a.date = b.date ∧ a.created_at ≤ b.created_at)

instance : DecidableRel debtLE := fun a b => by
  unfold debtLE; infer_instance

instance : IsTotal Debt debtLE := by
  constructor
  intro a b
  rcases lt_trichotomy a.date b.date with h | h | h
  · exact Or.inl (Or.inl h)
  · rcases Nat.le_total a.created_at b.created_at with hc | hc
    · exact Or.inl (Or.inr ⟨h, hc⟩)
    · exact Or.inr (Or.inr ⟨h.symm, hc⟩)
  · exact Or.inr (Or.inl h)

instance : IsTrans Debt debtLE := by
  constructor
  intro a b c hab hbc
  rcases hab with h1 | ⟨h1, h1c⟩
  · rcases hbc with h2 | ⟨h2, h2c⟩
    · exact Or.inl (h1.trans h2)
    · exact Or.inl (h2 ▸ h1)
  · rcases hbc with h2 | ⟨h2, h2c⟩
    · exact Or.inl (h1 ▸ h2)
    · exact Or.inr ⟨h1.trans h2, h1c.trans h2c⟩

/-- `GET /transactions` (sqlite):
`SELECT * FROM transactions WHERE user_id=? ORDER BY date DESC, created_at DESC`.
The SQL sort is modelled as a (stable) insertion sort by the `ORDER BY` key. -/
def listTransactions (uid : ℕ) (st : DB) : List Txn :=
  List.insertionSort txLE (st.transactions.filter (fun t => t.user_id == uid))

/-- `GET /debts` (sqlite):
`SELECT * FROM debts WHERE user_id=? ORDER BY date ASC, created_at ASC`. -/
def listDebts (uid : ℕ) (st : DB) : List Debt :=
  List.insertionSort debtLE (st.debts.filter (fun d => d.user_id == uid))

/-- A JSON body for `POST`/`PUT /transactions` (sqlite variant); every key is
optional.  `tax` and `total` may be supplied by the caller (the PUT merge
spreads them into `newVals`) but are never read by the handlers. -/
structure TxnBody where
  date : Option String := none
  type : Option String := none
  category : Option String := none
  base : Option ℚ := none
  tax : Option ℚ := none
  total : Option ℚ := none
  employee : Option String := none
  notes : Option String := none
deriving Repr, DecidableEq

/-- `POST /transactions` (sqlite variant, lines 135-146). -/
def createTransaction (uid : ℕ) (b : TxnBody) (st : DB) : Except Err (DB × Txn) :=
  if falsyStr b.date || falsyStr b.type || falsyStr b.category || b.base.isNone then
    .error .missingFields
  else
    match st.getSettings uid with
    | none => .error .noSettings
    | some s =>
      let ty := b.type.getD ""
      -- `(s.tax_income || 0)` is the identity on a rational-valued rate
      let rate := (if ty == "income" then s.tax_income else s.tax_expense) / 100
      -- `Number(base) || 0` is the identity on a rational-valued base
      let base := b.base.getD 0
      let tax := round2 (base * rate)
      let total := round2 (base + tax)
      -- the INSERT is subject to `CHECK(type IN ('income','expense'))`
      if ty == "income" || ty == "expense" then
        let row : Txn :=
          { id := st.txSeq, user_id := uid, date := b.date.getD "", type := ty,
            category := b.category.getD "", base := base, tax := tax, total := total,
            employee := orNullStr b.employee, notes := orNullStr b.notes,
            created_at := st.now }
        .ok ({ st with
                 transactions := st.transactions ++ [row],
                 txSeq := st.txSeq + 1, now := st.now + 1 }, row)
      else .error .checkViolation

/-- `PUT /transactions/:id` (sqlite variant, lines 147-161): fetch the row
scoped by tenant, merge `newVals = {...t, ...req.body}`, recompute `tax` and
`total` from the merged `base`/`type` and the tenant's current settings, then
`UPDATE ... WHERE id=? AND user_id=?` and re-select the row by id. -/
def updateTransaction (uid : ℕ) (i : ℕ) (b : TxnBody) (st : DB) : Except Err (DB × Txn) :=
  match st.transactions.find? (fun t => t.id == i && t.user_id == uid) with
  | none => .error .notFound
  | some t =>
    match st.getSettings uid with
    | none => .error .noSettings
    | some s =>
      let ty := b.type.getD t.type
      let rate := (if ty == "income" then s.tax_income else s.tax_expense) / 100
      -- `Number(newVals.base || 0)`: `newVals.base` is always present
      let base := b.base.getD t.base
      let tax := round2 (base * rate)
      let total := round2 (base + tax)
      -- the UPDATE is subject to `CHECK(type IN ('income','expense'))`
      if ty == "income" || ty == "expense" then
        let upd : Txn → Txn := fun r =>
          if r.id == i && r.user_id == uid then
            { r with
                date := b.date.getD t.date, type := ty,
                category := b.category.getD t.category, base := base, tax := tax,
                total := total,
                employee := orNullStr (if b.employee.isSome then b.employee else t.employee),
                notes := orNullStr (if b.notes.isSome then b.notes else t.notes) }
          else r
        let st2 : DB := { st with transactions := st.transactions.map upd }
        -- `SELECT * FROM transactions WHERE id=?` (no tenant scoping here)
        match st2.transactions.find? (fun r => r.id == i) with
        | some row => .ok (st2, row)
        | none => .error .notFound
      else .error .checkViolation

/-- `DELETE /transactions/:id` (sqlite variant, lines 162-165):
`DELETE FROM transactions WHERE id=? AND user_id=?`, then respond
`{ok:true}` unconditionally (`none` models the absence of an error). -/
def deleteTransaction (uid : ℕ) (i : ℕ) (st : DB) : DB × Option Err :=
  ({ st with transactions := st.transactions.filter (fun t => !(t.id == i && t.user_id == uid)) },
   none)

/-- A JSON body for `POST`/`PUT /debts` (sqlite variant).  A caller may
supply `delta`; the handlers never read it. -/
structure DebtBody where
  date : Option String := none
  employee : Option String := none
  kind : Option String := none
  amount : Option ℚ := none
  delta : Option ℚ := none
  notes : Option String := none
deriving Repr, DecidableEq

/-- `POST /debts` (sqlite variant, lines 172-180). -/
def createDebt (uid : ℕ) (b : DebtBody) (st : DB) : Except Err (DB × Debt) :=
  if falsyStr b.date || falsyStr b.employee || falsyStr b.kind || b.amount.isNone then
    .error .missingFields
  else
    let amt := b.amount.getD 0
    let kind := b.kind.getD ""
    let delta := if kind == "advance" then amt else -amt
    -- the INSERT is subject to `CHECK(kind IN ('advance','repay'))`
    if kind == "advance" || kind == "repay" then
      let row : Debt :=
        { id := st.debtSeq, user_id := uid, date := b.date.getD "",
          employee := b.employee.getD "", kind := kind, amount := amt, delta := delta,
          notes := orNullStr b.notes, created_at := st.now }
      .ok ({ st with
               debts := st.debts ++ [row],
               debtSeq := st.debtSeq + 1, now := st.now + 1 }, row)
    else .error .checkViolation

/-- `PUT /debts/:id` (sqlite variant, lines 181-191): fetch scoped by tenant,
merge, re-derive `delta` from the merged `kind`/`amount`, update, re-select. -/
def updateDebt (uid : ℕ) (i : ℕ) (b : DebtBody) (st : DB) : Except Err (DB × Debt) :=
  match st.debts.find? (fun d => d.id == i && d.user_id == uid) with
  | none => .error .notFound
  | some d =>
    let kind := b.kind.getD d.kind
    -- `Number(newVals.amount || 0)`: `newVals.amount` is always present
    let amt := b.amount.getD d.amount
    let delta := if kind == "advance" then amt else -amt
    if kind == "advance" || kind == "repay" then
      let upd : Debt → Debt := fun r =>
        if r.id == i && r.user_id == uid then
          { r with
              date := b.date.getD d.date,
              employee := b.employee.getD d.employee, kind := kind, amount := amt,
              delta := delta,
              notes := orNullStr (if b.notes.isSome then b.notes else d.notes) }
        else r
      let st2 : DB := { st with debts := st.debts.map upd }
      match st2.debts.find? (fun r => r.id == i) with
      | some row => .ok (st2, row)
      | none => .error .notFound
    else .error .checkViolation

/-- `DELETE /debts/:id` (sqlite variant, lines 192-195). -/
def deleteDebt (uid : ℕ) (i : ℕ) (st : DB) : DB × Option Err :=
  ({ st with debts := st.debts.filter (fun d => !(d.id == i && d.user_id == uid)) },
   none)

end Sqlite

namespace Flat

/-- A user record of the flat-file variant. -/
structure User where
  id : String
  email : String
  company : Option String
  passwordHash : String
  createdAt : ℕ
deriving Repr, DecidableEq

/-- The single, store-wide `settings` object of the flat-file variant.
It holds only vocabularies; there are no tax-rate fields. -/
structure Settings where
  paymentMethods : List String
  incomeCategories : List String
  expenseCategories : List String
  employees : List String
deriving Repr, DecidableEq

/-- A transaction record of the flat-file variant.  `createdAt` models the
ISO timestamp as a clock tick. -/
structure Txn where
  id : String
  date : String
  type : String
  category : Option String
  description : Option String
  paymentMethod : Option String
  reference : Option String
  project : Option String
  employee : Option String
  party : Option String
  amount : ℚ
  taxPercent : ℚ
  taxValue : ℚ
  total : ℚ
  createdBy : String
  createdAt : ℕ
deriving Repr, DecidableEq

/-- A debt record of the flat-file variant.  `POST /debts` writes the keys
through `plus`/`minus`; `PUT /debts/:id` merges the request body verbatim and
`POST /import` accepts arbitrary documents, so keys such as `delta` and
`amount` (absent from freshly created rows) can also occur. -/
structure Debt where
  id : String
  date : String
  employee : Option String
  employeeId : Option String
  kind : String
  description : Option String
  plus : Option ℚ
  minus : Option ℚ
  delta : Option ℚ
  amount : Option ℚ
  createdBy : String
  createdAt : ℕ
deriving Repr, DecidableEq

/-- The parsed content of `db.json` when it is a well-formed store. -/
structure DB where
  users : List User
  transactions : List Txn
  debts : List Debt
  settings : Settings
deriving Repr, DecidableEq

/-- Error responses of the flat-file handlers. -/
inductive Err where
  /-- 400 with the given message -/
  | badRequest (msg : String)
  /-- 404 `{error:'not found'}` -/
  | notFound
deriving Repr, DecidableEq

/-- Query string of `GET /transactions` (flat-file variant). -/
structure TxnQuery where
  type : Option String := none
  frm : Option String := none
  «to» : Option String := none
  employee : Option String := none
deriving Repr, DecidableEq

/-- `GET /transactions` (flat-file variant, lines 294-303): the whole
`db.transactions` array, narrowed only by the optional query filters; the
authenticated user is never consulted and no sorting is applied.
`new Date(a) >= new Date(b)` on the ISO-8601 date strings used by the app
coincides with lexicographic string comparison. -/
def listTransactions (uid : String) (q : TxnQuery) (db : DB) : List Txn :=
  let l := db.transactions
  let l := if !(falsyStr q.type) then l.filter (fun t => t.type == q.type.getD "") else l
  let l := if !(falsyStr q.employee) then
      l.filter (fun t => (t.employee.getD "").toLower == (q.employee.getD "").toLower)
    else l
  let l := if !(falsyStr q.frm) then l.filter (fun t => q.frm.getD "" ≤ t.date) else l
  let l := if !(falsyStr q.«to») then l.filter (fun t => t.date ≤ q.«to».getD "") else l
  l

/-- A JSON body for `POST`/`PUT /transactions` (flat-file variant).  The
modelled payload space covers the keys the handlers construct or read;
`taxValue`/`total` may be supplied and are merged by PUT before being
overwritten. -/
structure TxnBody where
  date : Option String := none
  type : Option String := none
  category : Option String := none
  description : Option String := none
  paymentMethod : Option String := none
  reference : Option String := none
  project : Option String := none
  employee : Option String := none
  party : Option String := none
  amount : Option ℚ := none
  taxPercent : Option ℚ := none
  taxValue : Option ℚ := none
  total : Option ℚ := none
deriving Repr, DecidableEq

/-- `POST /transactions` (flat-file variant, lines 305-319).  `newId` models
the generated `uuid()`, `now` the `new Date().toISOString()` timestamp. -/
def createTransaction (uid : String) (t : TxnBody) (newId : String) (now : ℕ)
    (db : DB) : Except Err (DB × Txn) :=
  if falsyStr t.date || falsyStr t.type || falsyNum t.amount then
    .error (.badRequest "date, type, amount required")
  else if !(t.type == some "income" || t.type == some "expense") then
    .error (.badRequest "type must be income or expense")
  else
    let amount := t.amount.getD 0
    -- `Number(t.amount) * Number(t.taxPercent || 0) / 100`, no rounding
    let taxValue := amount * (t.taxPercent.getD 0) / 100
    let row : Txn :=
      { id := newId, date := t.date.getD "", type := t.type.getD "",
        category := orNullStr t.category, description := orNullStr t.description,
        paymentMethod := orNullStr t.paymentMethod, reference := orNullStr t.reference,
        project := orNullStr t.project, employee := orNullStr t.employee,
        party := orNullStr t.party, amount := amount,
        taxPercent := t.taxPercent.getD 0, taxValue := taxValue,
        total := (if t.type == some "expense" then -1 else 1) * (amount + taxValue),
        createdBy := uid, createdAt := now }
    .ok ({ db with transactions := db.transactions ++ [row] }, row)

/-- `{ ...db.transactions[idx], ...req.body }` for the modelled payload keys
(`id`, `createdBy`, `createdAt` are not part of the modelled payload space). -/
def mergeTxn (old : Txn) (b : TxnBody) : Txn :=
  { old with
      date := b.date.getD old.date, type := b.type.getD old.type,
      category := if b.category.isSome then b.category else old.category,
      description := if b.description.isSome then b.description else old.description,
      paymentMethod := if b.paymentMethod.isSome then b.paymentMethod else old.paymentMethod,
      reference := if b.reference.isSome then b.reference else old.reference,
      project := if b.project.isSome then b.project else old.project,
      employee := if b.employee.isSome then b.employee else old.employee,
      party := if b.party.isSome then b.party else old.party,
      amount := b.amount.getD old.amount,
      taxPercent := b.taxPercent.getD old.taxPercent,
      taxValue := b.taxValue.getD old.taxValue,
      total := b.total.getD old.total }

/-- `PUT /transactions/:id` (flat-file variant, lines 322-330): find by id
only (no ownership check), merge the body, recompute `taxValue` and `total`
from the merged `amount`/`taxPercent`/`type`, store in place. -/
def updateTransaction (uid : String) (i : String) (b : TxnBody) (db : DB) :
    Except Err (DB × Txn) :=
  match db.transactions.findIdx? (fun x => x.id == i) with
  | none => .error .notFound
  | some idx =>
    match db.transactions[idx]? with
    | none => .error .notFound
    | some old =>
      let t0 := mergeTxn old b
      -- `t.taxValue = Number(t.amount) * Number(t.taxPercent || 0) / 100`
      let taxValue := t0.amount * t0.taxPercent / 100
      let t : Txn :=
        { t0 with
            taxValue := taxValue,
            total := (if t0.type == "expense" then -1 else 1) * (t0.amount + taxValue) }
      .ok ({ db with transactions := db.transactions.set idx t }, t)

/-- `DELETE /transactions/:id` (flat-file variant, lines 332-336): filter by
id only (no ownership check); responds with the number of deleted rows. -/
def deleteTransaction (uid : String) (i : String) (db : DB) : DB × ℕ :=
  let remaining := db.transactions.filter (fun x => !(x.id == i))
  ({ db with transactions := remaining }, db.transactions.length - remaining.length)

/-- `GET /debts` (flat-file variant, line 339): the whole array, unscoped
and unsorted. -/
def listDebts (uid : String) (db : DB) : List Debt := db.debts

/-- A JSON body for `POST`/`PUT /debts` (flat-file variant). -/
structure DebtBody where
  date : Option String := none
  employee : Option String := none
  employeeId : Option String := none
  kind : Option String := none
  description : Option String := none
  plus : Option ℚ := none
  minus : Option ℚ := none
  delta : Option ℚ := none
  amount : Option ℚ := none
deriving Repr, DecidableEq

/-- `POST /debts` (flat-file variant, lines 341-348). -/
def createDebt (uid : String) (d : DebtBody) (newId : String) (now : ℕ)
    (db : DB) : Except Err (DB × Debt) :=
  if falsyStr d.date || falsyStr d.employee || falsyStr d.kind then
    .error (.badRequest "date, employee, kind required")
  else
    let row : Debt :=
      { id := newId, date := d.date.getD "", employee := d.employee,
        employeeId := orNullStr d.employeeId, kind := d.kind.getD "",
        description := orNullStr d.description,
        plus := some (d.plus.getD 0), minus := some (d.minus.getD 0),
        delta := none, amount := none, createdBy := uid, createdAt := now }
    .ok ({ db with debts := db.debts ++ [row] }, row)

/-- `{ ...db.debts[idx], ...req.body }`: the verbatim merge performed by
`PUT /debts/:id`; nothing is re-derived. -/
def mergeDebt (old : Debt) (b : DebtBody) : Debt :=
  { old with
      date := b.date.getD old.date,
      employee := if b.employee.isSome then b.employee else old.employee,
      employeeId := if b.employeeId.isSome then b.employeeId else old.employeeId,
      kind := b.kind.getD old.kind,
      description := if b.description.isSome then b.description else old.description,
      plus := if b.plus.isSome then b.plus else old.plus,
      minus := if b.minus.isSome then b.minus else old.minus,
      delta := if b.delta.isSome then b.delta else old.delta,
      amount := if b.amount.isSome then b.amount else old.amount }

/-- `PUT /debts/:id` (flat-file variant, lines 350-355): find by id only,
merge the body verbatim, store in place. -/
def updateDebt (uid : String) (i : String) (b : DebtBody) (db : DB) :
    Except Err (DB × Debt) :=
  match db.debts.findIdx? (fun x => x.id == i) with
  | none => .error .notFound
  | some idx =>
    match db.debts[idx]? with
    | none => .error .notFound
    | some old =>
      let d := mergeDebt old b
      .ok ({ db with debts := db.debts.set idx d }, d)

/-- `DELETE /debts/:id` (flat-file variant, lines 357-361): filter by id
only (no ownership check). -/
def deleteDebt (uid : String) (i : String) (db : DB) : DB × ℕ :=
  let remaining := db.debts.filter (fun x => !(x.id == i))
  ({ db with debts := remaining }, db.debts.length - remaining.length)

/-- One entry of the `GET /debts/balances` response. -/
structure Balance where
  employee : String
  advances : ℚ
  repays : ℚ
  balance : ℚ
deriving Repr, DecidableEq

/-- `d.employee || 'â€”'`: the grouping key of a debt row; a missing or empty
employee falls into the literal bucket used by the source. -/
def debtKey (d : Debt) : String := if falsyStr d.employee then "â€”" else d.employee.getD ""

/-- One iteration of the `for (const d of db.debts)` loop of
`GET /debts/balances` (lines 363-374): the map is an insertion-ordered
association list; `advances` accumulates `Number(d.plus || 0)`, `repays`
accumulates `Number(d.minus || 0)`, and `balance` is refreshed from them.
The `kind` and `amount` keys are never consulted. -/
def balancesStep (map : List Balance) (d : Debt) : List Balance :=
  let k := debtKey d
  if map.any (fun b => b.employee == k) then
    map.map (fun b =>
      if b.employee == k then
        let advances := b.advances + d.plus.getD 0
        let repays := b.repays + d.minus.getD 0
        { b with advances := advances, repays := repays, balance := advances - repays }
      else b)
  else
    let advances := d.plus.getD 0
    let repays := d.minus.getD 0
    map ++ [{ employee := k, advances := advances, repays := repays,
              balance := advances - repays }]

/-- `GET /debts/balances` (flat-file variant, lines 363-374). -/
def balances (uid : String) (db : DB) : List Balance :=
  db.debts.foldl balancesStep []

/-- `GET /export` (flat-file variant, line 383): `res.json(readDB())`, the
entire file, whoever the authenticated caller is. -/
def exportDB (uid : String) (db : DB) : DB := db

/-- A JSON value as far as the `POST /import` handler can observe it: the
body's `data` key may hold any JSON value; object values are modelled as
(possibly store-shaped) documents.  A JS object is always truthy. -/
inductive FileValue where
  | obj (d : DB)
  | null
  | bool (b : Bool)
  | num (q : ℚ)
  | str (s : String)
deriving Repr, DecidableEq

/-- JavaScript truthiness of a JSON value. -/
def FileValue.truthy : FileValue → Bool
  | .obj _ => true
  | .null => false
  | .bool b => b
  | .num q => !(q == 0)
  | .str s => !(s == "")

/-- `POST /import` (flat-file variant, lines 384-388): `data` absent or falsy
is rejected with 400 `{error:'data required'}`; otherwise `writeDB(data)`
replaces the whole file with the supplied value, unvalidated. -/
def importDB (uid : String) (data : Option FileValue) (file : FileValue) :
    FileValue × Option Err :=
  match data with
  | none => (file, some (.badRequest "data required"))
  | some v => if v.truthy then (v, none) else (file, some (.badRequest "data required"))

end Flat

instance {ε α : Type} [DecidableEq ε] [DecidableEq α] : DecidableEq (Except ε α) := fun a b =>
  match a, b with
  | .ok x, .ok y => if h : x = y then isTrue (by rw [h]) else isFalse (by simp [h])
  | .ok _, .error _ => isFalse (by simp)
  | .error _, .ok _ => isFalse (by simp)
  | .error e, .error f => if h : e = f then isTrue (by rw [h]) else isFalse (by simp [h])

/-! Concrete fixtures used by witnesses and counterexamples. -/

/-- The sqlite schema's default settings row (15% both rates). -/
def sqSettings15 : Sqlite.Settings :=
  { currency := "ر.س", tax_income := 15, tax_expense := 15, monthly_expense_cap := 50000 }

/-- An income transaction of tenant 1, as created with base 1000 at a 15% rate. -/
def sqTx1 : Sqlite.Txn :=
  { id := 1, user_id := 1, date := "2024-01-01", type := "income", category := "sales",
    base := 1000, tax := 150, total := 1150, employee := none, notes := none, created_at := 0 }

/-- A sqlite store with one tenant (id 1) owning one transaction. -/
def sqDB1 : Sqlite.DB :=
  { settings := [(1, sqSettings15)], transactions := [sqTx1], debts := [],
    txSeq := 2, debtSeq := 1, now := 1 }

/-- A sqlite store with two tenants; tenant 1 owns the transaction and a debt. -/
def sqDebt1 : Sqlite.Debt :=
  { id := 1, user_id := 1, date := "2024-01-03", employee := "E", kind := "advance",
    amount := 100, delta := 100, notes := none, created_at := 1 }

def sqDB2 : Sqlite.DB :=
  { settings := [(1, sqSettings15), (2, sqSettings15)], transactions := [sqTx1],
    debts := [sqDebt1], txSeq := 2, debtSeq := 2, now := 2 }

/-- The flat-file variant's initial settings object. -/
def flSettings : Flat.Settings :=
  { paymentMethods := ["cash", "bank", "card", "cheque", "other"],
    incomeCategories := ["sales", "subscriptions", "services", "interest", "other"],
    expenseCategories := ["salary", "rent", "maintenance", "logistics", "purchases",
      "internet", "energy", "tax", "marketing", "other"],
    employees := [] }

def flUserA : Flat.User :=
  { id := "A", email := "a@example.com", company := none, passwordHash := "hA", createdAt := 0 }

def flUserB : Flat.User :=
  { id := "B", email := "b@example.com", company := none, passwordHash := "hB", createdAt := 1 }

/-- A transaction created by user A in the flat-file store. -/
def flTx1 : Flat.Txn :=
  { id := "t1", date := "2024-01-01", type := "income", category := some "sales",
    description := none, paymentMethod := none, reference := none, project := none,
    employee := none, party := none, amount := 1000, taxPercent := 15, taxValue := 150,
    total := 1150, createdBy := "A", createdAt := 2 }

/-- A flat-file store with two users where user A owns the only transaction. -/
def flDB1 : Flat.DB :=
  { users := [flUserA, flUserB], transactions := [flTx1], debts := [], settings := flSettings }

/-- An empty flat-file store with one registered user. -/
def flDB0 : Flat.DB :=
  { users := [flUserA], transactions := [], debts := [], settings := flSettings }

/-- Two same-day transactions stored in ascending creation order. -/
def flTxFirst : Flat.Txn :=
  { id := "tf", date := "2024-02-01", type := "income", category := none,
    description := none, paymentMethod := none, reference := none, project := none,
    employee := none, party := none, amount := 10, taxPercent := 0, taxValue := 0,
    total := 10, createdBy := "A", createdAt := 3 }

def flTxSecond : Flat.Txn :=
  { id := "tm", date := "2024-02-01", type := "income", category := none,
    description := none, paymentMethod := none, reference := none, project := none,
    employee := none, party := none, amount := 20, taxPercent := 0, taxValue := 0,
    total := 20, createdBy := "A", createdAt := 4 }

def flDB8 : Flat.DB :=
  { users := [flUserA, flUserB], transactions := [flTxFirst, flTxSecond], debts := [],
    settings := flSettings }

/-- The two debt rows of the claim's balance example, written with `kind` and
`amount` keys (no `plus`/`minus`), as `/import` or a verbatim merge can
produce them. -/
def flDebtAdv : Flat.Debt :=
  { id := "d1", date := "2024-01-01", employee := some "A", employeeId := none,
    kind := "advance", description := none, plus := none, minus := none,
    delta := none, amount := some 100, createdBy := "A", createdAt := 0 }

def flDebtRep : Flat.Debt :=
  { id := "d2", date := "2024-01-02", employee := some "A", employeeId := none,
    kind := "repay", description := none, plus := none, minus := none,
    delta := none, amount := some 40, createdBy := "A", createdAt := 1 }

def flDB5 : Flat.DB :=
  { users := [flUserA], transactions := [], debts := [flDebtAdv, flDebtRep],
    settings := flSettings }

/-- A debt row of user A exactly as `POST /debts` creates it. -/
def flDebtD1 : Flat.Debt :=
  { id := "d1", date := "2024-01-01", employee := some "E", employeeId := none,
    kind := "advance", description := none, plus := some 100, minus := some 0,
    delta := none, amount := none, createdBy := "A", createdAt := 0 }

def flDB6 : Flat.DB :=
  { users := [flUserA, flUserB], transactions := [], debts := [flDebtD1],
    settings := flSettings }

/-! Spec-side reference definitions (from the specification's words, for
comparison against the embedded code). -/

/-- The order the spec claims for transaction lists: date descending, then
creation time descending. -/
def claimedTxOrder (a b : Flat.Txn) : Prop :=
  b.date < a.date ∨ (b.date = a.date ∧ b.createdAt ≤ a.createdAt)

instance : DecidableRel claimedTxOrder := fun a b => by
  unfold claimedTxOrder; infer_instance

/-- The spec's `advances` aggregate for an employee bucket: the sum of the
stored `plus` amounts of the debts grouped under key `k`. -/
def specAdvances (k : String) (l : List Flat.Debt) : ℚ :=
  ((l.filter (fun d => Flat.debtKey d == k)).map (fun d => d.plus.getD 0)).sum

/-- The spec's `repayments` aggregate: the sum of the stored `minus` amounts
of the debts grouped under key `k`. -/
def specRepays (k : String) (l : List Flat.Debt) : ℚ :=
  ((l.filter (fun d => Flat.debtKey d == k)).map (fun d => d.minus.getD 0)).sum

/-- Claim C2 (counterexample): in the flat-file variant, user B's update of user
A's transaction succeeds (200 with the modified record) instead of NOT_FOUND,
and B's delete removes A's debt; in the sqlite variant a cross-tenant delete
leaves the row but still answers `{ok:true}`, not NOT_FOUND. -/
theorem C2_counterexample :
    (Flat.updateTransaction "B" "t1" { category := some "hacked" } flDB1 =
      .ok ({ flDB1 with transactions := [{ flTx1 with category := some "hacked" }] },
           { flTx1 with category := some "hacked" }) ∧
      flTx1.createdBy = "A" ∧ "A" ≠ "B") ∧
    (Flat.deleteDebt "B" "d1" flDB6 = ({ flDB6 with debts := [] }, 1) ∧
      flDebtD1.createdBy = "A") ∧
    (Sqlite.deleteTransaction 2 1 sqDB2 = (sqDB2, none) ∧ sqTx1.user_id = 1) := by
  refine ⟨⟨?_, rfl, by decide⟩, ⟨?_, rfl⟩, ⟨?_, rfl⟩⟩
  · norm_num [Flat.updateTransaction, Flat.mergeTxn, flDB1, flTx1, flSettings,
      List.findIdx?_cons]
    decide
  · decide
  · decide

/-- Claim C3 (counterexample): in the flat-file variant, user B's transaction
list returns A's transaction, B's debt list returns A's debt, and export hands
B the entire store including every user record. -/
theorem C3_counterexample :
    Flat.listTransactions "B" {} flDB1 = [flTx1] ∧ flTx1.createdBy = "A" ∧
    Flat.listDebts "B" flDB6 = [flDebtD1] ∧ flDebtD1.createdBy = "A" ∧
    Flat.exportDB "B" flDB1 = flDB1 ∧ flUserA ∈ flDB1.users ∧
    "A" ≠ "B" :=
  ⟨rfl, rfl, rfl, rfl, rfl, by simp [flDB1], by decide⟩

/-- Claim C3 (amended): in the sqlite variant every list operation returns
exactly the caller's rows; in the flat-file variant the transaction list (with
no filters), the debt list and the export return the stored data of all
tenants unscoped. -/
theorem C3_amended :
    (∀ (uid : ℕ) (st : Sqlite.DB) (r : Sqlite.Txn),
      r ∈ Sqlite.listTransactions uid st ↔ r ∈ st.transactions ∧ r.user_id = uid) ∧
    (∀ (uid : ℕ) (st : Sqlite.DB) (r : Sqlite.Debt),
      r ∈ Sqlite.listDebts uid st ↔ r ∈ st.debts ∧ r.user_id = uid) ∧
    (∀ (uid : String) (db : Flat.DB), Flat.listTransactions uid {} db = db.transactions) ∧
    (∀ (uid : String) (db : Flat.DB), Flat.listDebts uid db = db.debts) ∧
    (∀ (uid : String) (db : Flat.DB), Flat.exportDB uid db = db) := by
  refine ⟨fun uid st r => ?_, fun uid st r => ?_, fun uid db => rfl, fun uid db => rfl,
    fun uid db => rfl⟩
  · simp [Sqlite.listTransactions, List.mem_filter]
  · simp [Sqlite.listDebts, List.mem_filter]

/-- Claim C8 (counterexample): the flat-file transaction list returns the
stored insertion order, which for two same-day transactions is creation time
ascending, not the claimed date-descending/creation-descending order. -/
theorem C8_counterexample :
    Flat.listTransactions "B" {} flDB8 = flDB8.transactions ∧
    flDB8.transactions = [flTxFirst, flTxSecond] ∧
    ¬ List.Sorted claimedTxOrder [flTxFirst, flTxSecond] := by
  refine ⟨rfl, rfl, ?_⟩
  intro h
  have h2 := List.rel_of_sorted_cons h flTxSecond (by simp)
  rcases h2 with h2 | ⟨h2, h3⟩
  · exact lt_irrefl _ (show flTxSecond.date < flTxFirst.date from h2)
  · simp [flTxFirst, flTxSecond] at h3

/-- Claim C8 (amended): in the sqlite variant the transaction list is sorted
by date descending then creation time descending and the debt list by date
ascending then creation time ascending, each a permutation of the tenant's
rows; the flat-file variant returns both collections in insertion order with
no sorting. -/
theorem C8_amended :
    (∀ (uid : ℕ) (st : Sqlite.DB),
      List.Sorted Sqlite.txLE (Sqlite.listTransactions uid st) ∧
      List.Perm (Sqlite.listTransactions uid st)
        (st.transactions.filter (fun t => t.user_id == uid))) ∧
    (∀ (uid : ℕ) (st : Sqlite.DB),
      List.Sorted Sqlite.debtLE (Sqlite.listDebts uid st) ∧
      List.Perm (Sqlite.listDebts uid st)
        (st.debts.filter (fun d => d.user_id == uid))) ∧
    (∀ (uid : String) (db : Flat.DB), Flat.listTransactions uid {} db = db.transactions) ∧
    (∀ (uid : String) (db : Flat.DB), Flat.listDebts uid db = db.debts) := by
  refine ⟨fun uid st => ⟨?_, ?_⟩, fun uid st => ⟨?_, ?_⟩, fun uid db => rfl, fun uid db => rfl⟩
  · exact List.sorted_insertionSort Sqlite.txLE _
  · exact List.perm_insertionSort Sqlite.txLE _
  · exact List.sorted_insertionSort Sqlite.debtLE _
  · exact List.perm_insertionSort Sqlite.debtLE _

/-- Claim C2 (amended): in the sqlite variant, update on an id not owned by
the caller returns NOT_FOUND, and delete of a row not owned by the caller
leaves the store unchanged while answering `{ok:true}` rather than NOT_FOUND;
in the flat-file variant update and delete perform no ownership check at all:
an update on any existing id succeeds and a delete removes every row with that
id, whoever owns it. -/
theorem C2_amended :
    (∀ (uid i : ℕ) (b : Sqlite.TxnBody) (st : Sqlite.DB),
      st.transactions.find? (fun t => t.id == i && t.user_id == uid) = none →
      Sqlite.updateTransaction uid i b st = .error .notFound) ∧
    (∀ (uid i : ℕ) (b : Sqlite.DebtBody) (st : Sqlite.DB),
      st.debts.find? (fun d => d.id == i && d.user_id == uid) = none →
      Sqlite.updateDebt uid i b st = .error .notFound) ∧
    (∀ (uid i : ℕ) (st : Sqlite.DB),
      (∀ r ∈ st.transactions, (r.id == i && r.user_id == uid) = false) →
      Sqlite.deleteTransaction uid i st = (st, none)) ∧
    (∀ (uid i : ℕ) (st : Sqlite.DB),
      (∀ r ∈ st.debts, (r.id == i && r.user_id == uid) = false) →
      Sqlite.deleteDebt uid i st = (st, none)) ∧
    (∀ (uid i : String) (b : Flat.TxnBody) (db : Flat.DB),
      db.transactions.any (fun x => x.id == i) = true →
      ∃ db2 t, Flat.updateTransaction uid i b db = .ok (db2, t)) ∧
    (∀ (uid i : String) (db : Flat.DB),
      (Flat.deleteTransaction uid i db).1.transactions =
        db.transactions.filter (fun x => !(x.id == i)) ∧
      (Flat.deleteDebt uid i db).1.debts = db.debts.filter (fun x => !(x.id == i))) := by
  refine ⟨?_, ?_, ?_, ?_, ?_, fun uid i db => ⟨rfl, rfl⟩⟩
  · intro uid i b st h
    simp [Sqlite.updateTransaction, h]
  · intro uid i b st h
    simp [Sqlite.updateDebt, h]
  · intro uid i st h
    have hf : st.transactions.filter (fun t => !(t.id == i && t.user_id == uid)) =
        st.transactions :=
      List.filter_eq_self.mpr (by intro a ha; simp [h a ha])
    unfold Sqlite.deleteTransaction
    rw [hf]
  · intro uid i st h
    have hf : st.debts.filter (fun d => !(d.id == i && d.user_id == uid)) = st.debts :=
      List.filter_eq_self.mpr (by intro a ha; simp [h a ha])
    unfold Sqlite.deleteDebt
    rw [hf]
  · intro uid i b db h
    cases hf : db.transactions.findIdx? (fun x => x.id == i) with
    | none =>
      exfalso
      rcases List.any_eq_true.mp h with ⟨x, hx, hpx⟩
      have := (List.findIdx?_eq_none_iff.mp hf) x hx
      simp [this] at hpx
    | some idx =>
      have hlt := (List.findIdx?_eq_some_iff_findIdx_eq.mp hf).1
      have hg : db.transactions[idx]? = some db.transactions[idx] :=
        List.getElem?_eq_getElem hlt
      unfold Flat.updateTransaction
      rw [hf]
      dsimp only
      rw [hg]
      exact ⟨_, _, rfl⟩

/-- Claim C2 (witness): concrete cross-tenant instances of the amended
statement for both variants. -/
theorem C2_amended_witness :
    (sqDB2.transactions.find? (fun t => t.id == 1 && t.user_id == 2) = none ∧
      Sqlite.updateTransaction 2 1 { category := some "x" } sqDB2 = .error .notFound) ∧
    (flDB1.transactions.any (fun x => x.id == "t1") = true ∧
      ∃ db2 t, Flat.updateTransaction "B" "t1" { category := some "x" } flDB1 =
        .ok (db2, t)) := by
  constructor
  · exact ⟨by decide, C2_amended.1 2 1 _ sqDB2 (by decide)⟩
  · exact ⟨by decide, C2_amended.2.2.2.2.1 "B" "t1" _ flDB1 (by decide)⟩

/-- Claim C10 (counterexample): a request body that contains a `data` key
holding the JSON value `null` is rejected with 400 `data required` and leaves
the store unchanged, so not every body containing a `data` field replaces the
store. -/
theorem C10_counterexample :
    Flat.importDB "A" (some .null) (.obj flDB0) =
      (.obj flDB0, some (.badRequest "data required")) ∧
    Flat.FileValue.null.truthy = false := by
  exact ⟨rfl, rfl⟩

/-- Claim C10 (amended): the import operation replaces the whole file with
the supplied `data` value verbatim and unvalidated whenever that value is
truthy (in particular any JSON object); a missing or falsy `data` value is
rejected with 400 `data required` and the store is unchanged. -/
theorem C10_amended :
    (∀ (uid : String) (data file : Flat.FileValue), data.truthy = true →
      Flat.importDB uid (some data) file = (data, none)) ∧
    (∀ (uid : String) (data file : Flat.FileValue), data.truthy = false →
      Flat.importDB uid (some data) file = (file, some (.badRequest "data required"))) ∧
    (∀ (uid : String) (file : Flat.FileValue),
      Flat.importDB uid none file = (file, some (.badRequest "data required"))) := by
  refine ⟨?_, ?_, fun uid file => rfl⟩
  · intro uid data file h
    simp [Flat.importDB, h]
  · intro uid data file h
    simp [Flat.importDB, h]

/-- Claim C10 (witness): importing a concrete object-shaped document replaces
the file content with exactly that document. -/
theorem C10_amended_witness :
    (Flat.FileValue.obj flDB0).truthy = true ∧
    Flat.importDB "B" (some (.obj flDB0)) (.str "junk") = (.obj flDB0, none) :=
  ⟨rfl, C10_amended.1 "B" (.obj flDB0) (.str "junk") rfl⟩

def c4row : Flat.Txn :=
  { id := "t9", date := "2024-01-05", type := "expense", category := none,
    description := none, paymentMethod := none, reference := none, project := none,
    employee := none, party := none, amount := 1000, taxPercent := 15, taxValue := 150,
    total := -1150, createdBy := "A", createdAt := 7 }

/-- Claim C4 (counterexample): the flat-file create of an expense of 1000 at
taxPercent 15 persists total -1150, whereas the claimed formula
round(base + tax) gives 1150; the flat-file computation also applies no
2-decimal rounding. -/
theorem C4_counterexample :
    Flat.createTransaction "A"
      { date := some "2024-01-05", type := some "expense", amount := some 1000,
        taxPercent := some 15 } "t9" 7 flDB0 =
      .ok ({ flDB0 with transactions := [c4row] }, c4row) ∧
    c4row.taxValue = 150 ∧ c4row.total = -1150 ∧
    round2 (c4row.amount + c4row.taxValue) = 1150 ∧
    c4row.total ≠ round2 (c4row.amount + c4row.taxValue) := by
  refine ⟨?_, rfl, rfl, ?_, ?_⟩
  · norm_num [Flat.createTransaction, flDB0, c4row, falsyStr, falsyNum, orNullStr]
    intro h
    exact absurd h (by decide)
  · norm_num [c4row, round2, jsRound]
  · norm_num [c4row, round2, jsRound]

/-- Claim C4 (amended): the sqlite create computes
tax = round2(base * rate/100) with the tenant's rate for the transaction type
and total = round2(base + tax); the flat-file create computes
taxValue = amount * taxPercent/100 unrounded from the caller-supplied
taxPercent and total = amount + taxValue negated for expenses. -/
theorem C4_amended :
    (∀ (uid : ℕ) (b : Sqlite.TxnBody) (st st2 : Sqlite.DB) (t : Sqlite.Txn)
      (s : Sqlite.Settings),
      st.getSettings uid = some s →
      Sqlite.createTransaction uid b st = .ok (st2, t) →
      t.base = b.base.getD 0 ∧
      t.tax = round2 (t.base * ((if t.type == "income" then s.tax_income
        else s.tax_expense) / 100)) ∧
      t.total = round2 (t.base + t.tax) ∧
      st2.transactions = st.transactions ++ [t]) ∧
    (∀ (uid : String) (b : Flat.TxnBody) (newId : String) (now : ℕ) (db db2 : Flat.DB)
      (t : Flat.Txn),
      Flat.createTransaction uid b newId now db = .ok (db2, t) →
      t.amount = b.amount.getD 0 ∧
      t.taxValue = t.amount * t.taxPercent / 100 ∧
      t.total = (if t.type == "expense" then -1 else 1) * (t.amount + t.taxValue) ∧
      db2.transactions = db.transactions ++ [t]) := by
  constructor
  · intro uid b st st2 t s hs hc
    unfold Sqlite.createTransaction at hc
    split at hc
    · exact absurd hc (by simp)
    · rw [hs] at hc
      dsimp only at hc
      split at hc
      · injection hc with hc2
        injection hc2 with h4 h5
        subst h4
        subst h5
        refine ⟨rfl, ?_, rfl, rfl⟩
        rfl
      · exact absurd hc (by simp)
  · intro uid b newId now db db2 t hc
    unfold Flat.createTransaction at hc
    split at hc
    · exact absurd hc (by simp)
    · split at hc
      · exact absurd hc (by simp)
      · injection hc with hc2
        injection hc2 with h4 h5
        subst h4
        subst h5
        refine ⟨rfl, rfl, ?_, rfl⟩
        cases hbt : b.type <;> simp [hbt]

def c7row : Flat.Txn :=
  { id := "t7", date := "2024-01-02", type := "income", category := none,
    description := none, paymentMethod := none, reference := none, project := none,
    employee := none, party := none, amount := 500, taxPercent := 0, taxValue := 0,
    total := 500, createdBy := "A", createdAt := 9 }

/-- Claim C7 (counterexample): the flat-file create succeeds and writes a
record even when `category` is absent, so a missing category does not fail
with MISSING_FIELD. -/
theorem C7_counterexample :
    Flat.createTransaction "A"
      { date := some "2024-01-02", type := some "income", amount := some 500 } "t7" 9 flDB0 =
      .ok ({ flDB0 with transactions := [c7row] }, c7row) ∧
    c7row.category = none ∧
    ({ flDB0 with transactions := [c7row] } : Flat.DB).transactions.length =
      flDB0.transactions.length + 1 := by
  refine ⟨?_, rfl, rfl⟩
  have h1 : ¬("2024-01-02" = "" ∨ "income" = "") := by decide
  have h2 : "income" ≠ "expense" := by decide
  norm_num [Flat.createTransaction, flDB0, c7row, falsyStr, falsyNum, orNullStr, h1, h2]

/-- Claim C7 (amended): create validation runs before any store mutation and
no record is written on failure; the sqlite variant requires
date/type/category/base (400 `Missing fields`) and rejects an invalid type via
the store's CHECK constraint (an unhandled storage failure, not an
INVALID_TYPE response); the flat-file variant requires only date/type/amount
and rejects an invalid type with a 400 before writing, while a missing
category is accepted. -/
theorem C7_amended :
    (∀ (uid : ℕ) (b : Sqlite.TxnBody) (st : Sqlite.DB),
      (falsyStr b.date || falsyStr b.type || falsyStr b.category || b.base.isNone) = true →
      Sqlite.createTransaction uid b st = .error .missingFields) ∧
    (∀ (uid : ℕ) (b : Sqlite.TxnBody) (st : Sqlite.DB) (s : Sqlite.Settings) (ty : String),
      st.getSettings uid = some s → b.type = some ty → ty ≠ "" →
      falsyStr b.date = false → falsyStr b.category = false → b.base.isSome →
      ty ≠ "income" → ty ≠ "expense" →
      Sqlite.createTransaction uid b st = .error .checkViolation) ∧
    (∀ (uid : String) (b : Flat.TxnBody) (newId : String) (now : ℕ) (db : Flat.DB),
      (falsyStr b.date || falsyStr b.type || falsyNum b.amount) = true →
      Flat.createTransaction uid b newId now db =
        .error (.badRequest "date, type, amount required")) ∧
    (∀ (uid : String) (b : Flat.TxnBody) (newId : String) (now : ℕ) (db : Flat.DB)
      (ty : String),
      b.type = some ty → ty ≠ "" → falsyStr b.date = false → falsyNum b.amount = false →
      ty ≠ "income" → ty ≠ "expense" →
      Flat.createTransaction uid b newId now db =
        .error (.badRequest "type must be income or expense")) ∧
    (∀ (uid : String) (b : Flat.TxnBody) (newId : String) (now : ℕ) (db : Flat.DB),
      falsyStr b.date = false → falsyNum b.amount = false →
      (b.type = some "income" ∨ b.type = some "expense") →
      ∃ db2 t, Flat.createTransaction uid b newId now db = .ok (db2, t)) := by
  refine ⟨?_, ?_, ?_, ?_, ?_⟩
  · intro uid b st h
    simp [Sqlite.createTransaction, h]
  · intro uid b st s ty hs hty htne hd hc hb h1 h2
    have hft : falsyStr b.type = false := by simp [falsyStr, hty, htne]
    obtain ⟨x, hx⟩ := Option.isSome_iff_exists.mp hb
    unfold Sqlite.createTransaction
    rw [hd, hft, hc, hx, hs, hty]
    simp [h1, h2]
  · intro uid b newId now db h
    simp [Flat.createTransaction, h]
  · intro uid b newId now db ty hty htne hd ha h1 h2
    have hft : falsyStr b.type = false := by simp [falsyStr, hty, htne]
    unfold Flat.createTransaction
    rw [hd, hft, ha]
    simp [hty, h1, h2]
  · intro uid b newId now db hd ha hty
    have hft : falsyStr b.type = false := by
      rcases hty with h | h <;> simp [falsyStr, h]
    unfold Flat.createTransaction
    rw [hd, hft, ha]
    have : (b.type == some "income" || b.type == some "expense") = true := by
      rcases hty with h | h <;> simp [h]
    simp only [Bool.false_or, this]
    exact ⟨_, _, rfl⟩

def c1aRow : Flat.Txn := { flTx1 with taxPercent := 10, taxValue := 100, total := 1100 }

def c1bRow : Flat.Txn := { flTx1 with taxPercent := 50, taxValue := 500, total := 1500 }

/-- Claim C1 (counterexample): two flat-file updates of the same transaction
whose merged amount, type and stored settings coincide persist different tax
values (100 vs 500), because tax is recomputed from the caller-suppliable
taxPercent of the request body; no tenant tax rate exists in this variant, so
tax/total are not derived from the merged base and type using the tenant's
current rates. -/
theorem C1_counterexample :
    Flat.updateTransaction "A" "t1" { taxPercent := some 10 } flDB1 =
      .ok ({ flDB1 with transactions := [c1aRow] }, c1aRow) ∧
    Flat.updateTransaction "A" "t1" { taxPercent := some 50 } flDB1 =
      .ok ({ flDB1 with transactions := [c1bRow] }, c1bRow) ∧
    c1aRow.amount = 1000 ∧ c1bRow.amount = 1000 ∧
    c1aRow.type = "income" ∧ c1bRow.type = "income" ∧
    ({ flDB1 with transactions := [c1aRow] } : Flat.DB).settings =
      ({ flDB1 with transactions := [c1bRow] } : Flat.DB).settings ∧
    c1aRow.taxValue = 100 ∧ c1bRow.taxValue = 500 ∧ (100 : ℚ) ≠ 500 := by
  have e1 : Flat.updateTransaction "A" "t1" { taxPercent := some 10 } flDB1 =
      .ok ({ flDB1 with transactions := [c1aRow] }, c1aRow) := by
    norm_num [Flat.updateTransaction, Flat.mergeTxn, flDB1, flTx1, c1aRow,
      List.findIdx?_cons]
    decide
  have e2 : Flat.updateTransaction "A" "t1" { taxPercent := some 50 } flDB1 =
      .ok ({ flDB1 with transactions := [c1bRow] }, c1bRow) := by
    norm_num [Flat.updateTransaction, Flat.mergeTxn, flDB1, flTx1, c1bRow,
      List.findIdx?_cons]
    decide
  exact ⟨e1, e2, rfl, rfl, rfl, rfl, rfl, rfl, rfl, by norm_num⟩

/-- Claim C1 (amended): in the sqlite variant, update merges the payload onto
the owned row and always recomputes the persisted tax and total from the
merged base and type using the tenant's settings current at update time, and
the outcome is identical when caller-supplied tax/total are dropped; in the
flat-file variant, update recomputes taxValue and total from the merged
amount and the merged (caller-suppliable) taxPercent, negating the total for
expenses, and caller-supplied taxValue/total are likewise discarded. -/
theorem C1_amended :
    (∀ (uid i : ℕ) (b : Sqlite.TxnBody) (st st2 : Sqlite.DB) (t old : Sqlite.Txn)
      (s : Sqlite.Settings),
      st.transactions.find? (fun r => r.id == i && r.user_id == uid) = some old →
      st.getSettings uid = some s →
      Sqlite.updateTransaction uid i b st = .ok (st2, t) →
      ∀ r ∈ st2.transactions, r.id = i → r.user_id = uid →
        r.base = b.base.getD old.base ∧
        r.type = b.type.getD old.type ∧
        r.tax = round2 (r.base * ((if r.type == "income" then s.tax_income
          else s.tax_expense) / 100)) ∧
        r.total = round2 (r.base + r.tax)) ∧
    (∀ (uid i : ℕ) (b : Sqlite.TxnBody) (st : Sqlite.DB),
      Sqlite.updateTransaction uid i b st =
        Sqlite.updateTransaction uid i { b with tax := none, total := none } st) ∧
    (∀ (uid i : String) (b : Flat.TxnBody) (db db2 : Flat.DB) (t : Flat.Txn),
      Flat.updateTransaction uid i b db = .ok (db2, t) →
      t.taxValue = t.amount * t.taxPercent / 100 ∧
      t.total = (if t.type == "expense" then -1 else 1) * (t.amount + t.taxValue)) ∧
    (∀ (uid i : String) (b : Flat.TxnBody) (db : Flat.DB),
      Flat.updateTransaction uid i b db =
        Flat.updateTransaction uid i { b with taxValue := none, total := none } db) := by
  refine ⟨?_, fun uid i b st => rfl, ?_, fun uid i b db => rfl⟩
  · intro uid i b st st2 t old s hfind hs hu
    unfold Sqlite.updateTransaction at hu
    rw [hfind, hs] at hu
    dsimp only at hu
    split at hu
    · split at hu
      · injection hu with hu2
        injection hu2 with h4 h5
        subst h4
        intro r hr hid huid
        obtain ⟨r0, hr0, rfl⟩ := List.mem_map.mp hr
        by_cases hm : (r0.id == i && r0.user_id == uid) = true
        · rw [if_pos hm]
          exact ⟨rfl, rfl, rfl, rfl⟩
        · rw [if_neg hm] at hid huid ⊢
          simp [hid, huid] at hm
      · exact absurd hu (by simp)
    · exact absurd hu (by simp)
  · intro uid i b db db2 t hu
    unfold Flat.updateTransaction at hu
    split at hu
    · exact absurd hu (by simp)
    · split at hu
      · exact absurd hu (by simp)
      · injection hu with hu2
        injection hu2 with h4 h5
        subst h4
        subst h5
        exact ⟨rfl, rfl⟩

def c1wBody : Sqlite.TxnBody := { base := some 2000, tax := some 9, total := some 9 }

def c1wRow : Sqlite.Txn := { sqTx1 with base := 2000, tax := 300, total := 2300 }

def c1wDB : Sqlite.DB := { sqDB1 with transactions := [c1wRow] }

/-- Claim C1 (witness): the spec's re-derivation example: updating base to
2000 (with junk tax/total in the payload) at the 15% income rate persists
tax 300 and total 2300. -/
theorem C1_amended_witness :
    sqDB1.transactions.find? (fun r => r.id == 1 && r.user_id == 1) = some sqTx1 ∧
    sqDB1.getSettings 1 = some sqSettings15 ∧
    Sqlite.updateTransaction 1 1 c1wBody sqDB1 = .ok (c1wDB, c1wRow) ∧
    c1wRow ∈ c1wDB.transactions ∧
    (c1wRow.base = c1wBody.base.getD sqTx1.base ∧
     c1wRow.type = c1wBody.type.getD sqTx1.type ∧
     c1wRow.tax = round2 (c1wRow.base * ((if c1wRow.type == "income" then
       sqSettings15.tax_income else sqSettings15.tax_expense) / 100)) ∧
     c1wRow.total = round2 (c1wRow.base + c1wRow.tax)) ∧
    c1wRow.tax = 300 ∧ c1wRow.total = 2300 := by
  have hev : Sqlite.updateTransaction 1 1 c1wBody sqDB1 = .ok (c1wDB, c1wRow) := by
    norm_num [Sqlite.updateTransaction, sqDB1, sqTx1, sqSettings15, c1wBody, c1wRow,
      c1wDB, Sqlite.DB.getSettings, round2, jsRound, orNullStr, falsyStr, List.find?]
  have hmem : c1wRow ∈ c1wDB.transactions := by simp [c1wDB]
  exact ⟨by decide, by decide, hev, hmem,
    C1_amended.1 1 1 c1wBody sqDB1 c1wDB c1wRow sqTx1 sqSettings15 (by decide) (by decide)
      hev c1wRow hmem rfl rfl, rfl, rfl⟩

def c6row : Flat.Debt := { flDebtD1 with delta := some (-5), amount := some 100 }

/-- Claim C6 (counterexample): the flat-file debt update merges the body
verbatim, so a caller-supplied delta of -5 is stored as-is next to
kind = advance and amount = 100 instead of being re-derived to +100. -/
theorem C6_counterexample :
    Flat.updateDebt "B" "d1" { delta := some (-5), amount := some 100 } flDB6 =
      .ok ({ flDB6 with debts := [c6row] }, c6row) ∧
    c6row.kind = "advance" ∧ c6row.amount = some 100 ∧ c6row.delta = some (-5) ∧
    c6row.delta ≠ some (100 : ℚ) := by
  refine ⟨?_, rfl, rfl, rfl, by decide⟩
  norm_num [Flat.updateDebt, Flat.mergeDebt, flDB6, flDebtD1, c6row, List.findIdx?_cons]

/-- Claim C6 (amended): in the sqlite variant every debt write derives the
stored delta as +amount for kind advance and -amount otherwise, update
re-derives it from the merged kind/amount and ignores a caller-supplied
delta; in the flat-file variant the debt update is a verbatim merge with no
derived field, so a supplied delta is stored unchanged. -/
theorem C6_amended :
    (∀ (uid : ℕ) (b : Sqlite.DebtBody) (st st2 : Sqlite.DB) (d : Sqlite.Debt),
      Sqlite.createDebt uid b st = .ok (st2, d) →
      d.amount = b.amount.getD 0 ∧
      d.delta = (if d.kind == "advance" then d.amount else -d.amount) ∧
      st2.debts = st.debts ++ [d]) ∧
    (∀ (uid i : ℕ) (b : Sqlite.DebtBody) (st st2 : Sqlite.DB) (d old : Sqlite.Debt),
      st.debts.find? (fun r => r.id == i && r.user_id == uid) = some old →
      Sqlite.updateDebt uid i b st = .ok (st2, d) →
      ∀ r ∈ st2.debts, r.id = i → r.user_id = uid →
        r.kind = b.kind.getD old.kind ∧
        r.amount = b.amount.getD old.amount ∧
        r.delta = (if r.kind == "advance" then r.amount else -r.amount)) ∧
    (∀ (uid i : ℕ) (b : Sqlite.DebtBody) (st : Sqlite.DB),
      Sqlite.updateDebt uid i b st =
        Sqlite.updateDebt uid i { b with delta := none } st) ∧
    (∀ (uid i : String) (b : Flat.DebtBody) (db : Flat.DB) (idx : ℕ) (old : Flat.Debt),
      db.debts.findIdx? (fun x => x.id == i) = some idx →
      db.debts[idx]? = some old →
      Flat.updateDebt uid i b db =
        .ok ({ db with debts := db.debts.set idx (Flat.mergeDebt old b) },
             Flat.mergeDebt old b) ∧
      (Flat.mergeDebt old b).delta = (if b.delta.isSome then b.delta else old.delta)) := by
  refine ⟨?_, ?_, fun uid i b st => rfl, ?_⟩
  · intro uid b st st2 d hc
    unfold Sqlite.createDebt at hc
    split at hc
    · exact absurd hc (by simp)
    · dsimp only at hc
      split at hc
      · injection hc with hc2
        injection hc2 with h4 h5
        subst h4
        subst h5
        exact ⟨rfl, rfl, rfl⟩
      · exact absurd hc (by simp)
  · intro uid i b st st2 d old hfind hu
    unfold Sqlite.updateDebt at hu
    rw [hfind] at hu
    dsimp only at hu
    split at hu
    · split at hu
      · injection hu with hu2
        injection hu2 with h4 h5
        subst h4
        intro r hr hid huid
        obtain ⟨r0, hr0, rfl⟩ := List.mem_map.mp hr
        by_cases hm : (r0.id == i && r0.user_id == uid) = true
        · rw [if_pos hm]
          exact ⟨rfl, rfl, rfl⟩
        · rw [if_neg hm] at hid huid ⊢
          simp [hid, huid] at hm
      · exact absurd hu (by simp)
    · exact absurd hu (by simp)
  · intro uid i b db idx old h1 h2
    constructor
    · unfold Flat.updateDebt
      rw [h1]
      dsimp only
      rw [h2]
    · rfl

lemma specAdvances_cons (k : String) (d : Flat.Debt) (l : List Flat.Debt) :
    specAdvances k (d :: l) =
      (if (Flat.debtKey d == k) = true then d.plus.getD 0 else 0) + specAdvances k l := by
  by_cases h : (Flat.debtKey d == k) = true <;>
    simp [specAdvances, List.filter_cons, h]

lemma specRepays_cons (k : String) (d : Flat.Debt) (l : List Flat.Debt) :
    specRepays k (d :: l) =
      (if (Flat.debtKey d == k) = true then d.minus.getD 0 else 0) + specRepays k l := by
  by_cases h : (Flat.debtKey d == k) = true <;>
    simp [specRepays, List.filter_cons, h]

lemma find_balancesStep (acc : List Flat.Balance) (d : Flat.Debt) (k : String) :
    (Flat.balancesStep acc d).find? (fun b => b.employee == k) =
      if (Flat.debtKey d == k) = true then
        match acc.find? (fun b => b.employee == k) with
        | some b0 => some { employee := b0.employee,
                            advances := b0.advances + d.plus.getD 0,
                            repays := b0.repays + d.minus.getD 0,
                            balance := (b0.advances + d.plus.getD 0) -
                              (b0.repays + d.minus.getD 0) }
        | none => some { employee := Flat.debtKey d, advances := d.plus.getD 0,
                         repays := d.minus.getD 0,
                         balance := d.plus.getD 0 - d.minus.getD 0 }
      else acc.find? (fun b => b.employee == k) := by
  unfold Flat.balancesStep
  by_cases hmem : (acc.any fun b => b.employee == Flat.debtKey d) = true
  · rw [if_pos hmem, List.find?_map]
    have hcomp : ((fun b : Flat.Balance => b.employee == k) ∘ fun b =>
        if (b.employee == Flat.debtKey d) = true then
          { b with
              advances := b.advances + d.plus.getD 0,
              repays := b.repays + d.minus.getD 0,
              balance := (b.advances + d.plus.getD 0) - (b.repays + d.minus.getD 0) }
        else b) = (fun b => b.employee == k) := by
      funext b
      by_cases hb : b.employee = Flat.debtKey d <;> simp [hb]
    rw [hcomp]
    by_cases hdk : (Flat.debtKey d == k) = true
    · rw [if_pos hdk]
      have hk : Flat.debtKey d = k := by simpa using hdk
      cases hfind : acc.find? (fun b => b.employee == k) with
      | none =>
        exfalso
        rcases List.any_eq_true.mp hmem with ⟨b, hbm, hbk⟩
        have := List.find?_eq_none.mp hfind b hbm
        rw [hk] at hbk
        exact this hbk
      | some b0 =>
        have hb0 : (b0.employee == k) = true := by
          have := List.find?_some hfind
          simpa using this
        rw [hk]
        have hb0' : b0.employee = k := by simpa using hb0
        simp [hb0']
    · rw [if_neg hdk]
      cases hfind : acc.find? (fun b => b.employee == k) with
      | none => simp
      | some b0 =>
        have hb0 : (b0.employee == k) = true := by
          have := List.find?_some hfind
          simpa using this
        have hb0d : (b0.employee == Flat.debtKey d) = false := by
          by_cases hbd : b0.employee = Flat.debtKey d
          · exact absurd (hbd ▸ hb0) hdk
          · simp [hbd]
        have hb0d' : ¬b0.employee = Flat.debtKey d := by simpa using hb0d
        simp [hb0d']
  · rw [if_neg hmem, List.find?_append]
    have hnone : acc.find? (fun b => b.employee == Flat.debtKey d) = none := by
      rw [List.find?_eq_none]
      intro b hbm hbk
      exact hmem (List.any_eq_true.mpr ⟨b, hbm, hbk⟩)
    by_cases hdk : (Flat.debtKey d == k) = true
    · have hk : Flat.debtKey d = k := by simpa using hdk
      rw [if_pos hdk]
      have hfind : acc.find? (fun b => b.employee == k) = none := by rw [← hk]; exact hnone
      rw [hfind]
      simp [hk]
    · rw [if_neg hdk]
      cases hfind : acc.find? (fun b => b.employee == k) with
      | none => simp [List.find?, hdk]
      | some b0 => simp

lemma balancesStep_balance (acc : List Flat.Balance) (d : Flat.Debt)
    (h : ∀ b ∈ acc, b.balance = b.advances - b.repays) :
    ∀ b ∈ Flat.balancesStep acc d, b.balance = b.advances - b.repays := by
  intro b hb
  unfold Flat.balancesStep at hb
  by_cases hmem : (acc.any fun x => x.employee == Flat.debtKey d) = true
  · rw [if_pos hmem] at hb
    obtain ⟨b0, hb0, rfl⟩ := List.mem_map.mp hb
    by_cases hm : b0.employee = Flat.debtKey d
    · simp [hm]
    · simp [hm]
      exact h b0 hb0
  · rw [if_neg hmem] at hb
    rcases List.mem_append.mp hb with h1 | h1
    · exact h b h1
    · simp at h1
      subst h1
      rfl

lemma balances_loop : ∀ (l : List Flat.Debt) (acc : List Flat.Balance),
    (∀ b ∈ acc, b.balance = b.advances - b.repays) →
    ∀ k : String,
      (List.foldl Flat.balancesStep acc l).find? (fun b => b.employee == k) =
        match acc.find? (fun b => b.employee == k) with
        | some b0 => some { employee := b0.employee,
                            advances := b0.advances + specAdvances k l,
                            repays := b0.repays + specRepays k l,
                            balance := (b0.advances + specAdvances k l) -
                              (b0.repays + specRepays k l) }
        | none =>
          if l.any (fun d => Flat.debtKey d == k) then
            some { employee := k, advances := specAdvances k l,
                   repays := specRepays k l,
                   balance := specAdvances k l - specRepays k l }
          else none := by
  intro l
  induction l with
  | nil =>
    intro acc h k
    rw [List.foldl_nil]
    cases hfind : acc.find? (fun b => b.employee == k) with
    | none => simp
    | some b0 =>
      have hbal := h b0 (List.mem_of_find?_eq_some hfind)
      cases b0
      simp_all [specAdvances, specRepays]
  | cons d rest ih =>
    intro acc h k
    rw [List.foldl_cons,
      ih (Flat.balancesStep acc d) (balancesStep_balance acc d h) k,
      find_balancesStep]
    by_cases hdk : (Flat.debtKey d == k) = true
    · rw [if_pos hdk]
      have hk : Flat.debtKey d = k := by simpa using hdk
      cases hfind : acc.find? (fun b => b.employee == k) with
      | some b0 =>
        simp [specAdvances_cons, specRepays_cons, hdk, add_assoc]
      | none =>
        rw [List.any_cons]
        simp [specAdvances_cons, specRepays_cons, hdk, hk]
    · rw [if_neg hdk]
      have hdkf : (Flat.debtKey d == k) = false := by
        rcases Bool.eq_false_or_eq_true (Flat.debtKey d == k) with hx | hx
        · exact absurd hx hdk
        · exact hx
      cases hfind : acc.find? (fun b => b.employee == k) with
      | some b0 =>
        simp [specAdvances_cons, specRepays_cons, hdkf]
      | none =>
        rw [List.any_cons]
        simp [specAdvances_cons, specRepays_cons, hdkf]

/-- Claim C5 (amended): the balances aggregation groups the entire stored
debt collection (all tenants) by the employee key, with missing or empty
employees collected under the literal placeholder bucket; for each occurring
key it reports advances as the sum of the stored `plus` amounts, repayments
(field `repays`) as the sum of the stored `minus` amounts, and
balance = advances - repays; the `kind` and `amount` keys are never
consulted. -/
theorem C5_amended : ∀ (uid k : String) (db : Flat.DB),
    (Flat.balances uid db).find? (fun b => b.employee == k) =
      (if db.debts.any (fun d => Flat.debtKey d == k) then
        some { employee := k, advances := specAdvances k db.debts,
               repays := specRepays k db.debts,
               balance := specAdvances k db.debts - specRepays k db.debts }
       else none) := by
  intro uid k db
  have h := balances_loop db.debts [] (by simp) k
  simpa [Flat.balances] using h

/-- Claim C5 (counterexample): on the claim's own example debts, written with
kind/amount as the spec's data model describes them, balances yields
advances 0, repayments 0 and balance 0 for employee A instead of the claimed
100/40/60, because the code sums the `plus`/`minus` fields and ignores
`kind`/`amount`. -/
theorem C5_counterexample :
    Flat.balances "A" flDB5 =
      [{ employee := "A", advances := 0, repays := 0, balance := 0 }] ∧
    flDebtAdv.kind = "advance" ∧ flDebtAdv.amount = some 100 ∧
    flDebtRep.kind = "repay" ∧ flDebtRep.amount = some 40 ∧
    ((0 : ℚ) ≠ 100 ∧ (0 : ℚ) ≠ 40 ∧ (0 : ℚ) ≠ 60) := by
  refine ⟨?_, rfl, rfl, rfl, rfl, by norm_num⟩
  have hA : ¬("A" : String) = "" := by decide
  norm_num [Flat.balances, Flat.balancesStep, Flat.debtKey, flDB5, flDebtAdv, flDebtRep,
    falsyStr, hA]

def c4wBody : Sqlite.TxnBody :=
  { date := some "2024-01-02", type := some "income", category := some "sales",
    base := some 1000 }

def c4wRow : Sqlite.Txn :=
  { id := 2, user_id := 1, date := "2024-01-02", type := "income", category := "sales",
    base := 1000, tax := 150, total := 1150, employee := none, notes := none,
    created_at := 1 }

def c4wDB : Sqlite.DB := { sqDB1 with transactions := [sqTx1, c4wRow], txSeq := 3, now := 2 }

/-- Claim C4 (witness): the spec's tax example: creating base 1000, type
income at the default 15% rate persists tax 150 and total 1150. -/
theorem C4_amended_witness :
    sqDB1.getSettings 1 = some sqSettings15 ∧
    Sqlite.createTransaction 1 c4wBody sqDB1 = .ok (c4wDB, c4wRow) ∧
    c4wRow.tax = 150 ∧ c4wRow.total = 1150 ∧
    (c4wRow.base = c4wBody.base.getD 0 ∧
     c4wRow.tax = round2 (c4wRow.base * ((if c4wRow.type == "income" then
       sqSettings15.tax_income else sqSettings15.tax_expense) / 100)) ∧
     c4wRow.total = round2 (c4wRow.base + c4wRow.tax) ∧
     c4wDB.transactions = sqDB1.transactions ++ [c4wRow]) := by
  have hev : Sqlite.createTransaction 1 c4wBody sqDB1 = .ok (c4wDB, c4wRow) := by
    have hne : ¬(("2024-01-02" = "" ∨ "income" = "") ∨ "sales" = "") := by decide
    norm_num [Sqlite.createTransaction, sqDB1, sqTx1, sqSettings15, c4wBody, c4wRow,
      c4wDB, Sqlite.DB.getSettings, round2, jsRound, orNullStr, falsyStr, List.find?, hne]
  exact ⟨by decide, hev, rfl, rfl,
    C4_amended.1 1 c4wBody sqDB1 c4wDB c4wRow sqSettings15 (by decide) hev⟩

/-- Claim C7 (witness): concrete failing creates in both variants (missing
fields, invalid type) and one concrete flat-file create that succeeds without
a category. -/
theorem C7_amended_witness :
    ((falsyStr (none : Option String) || falsyStr (some "income") ||
        falsyStr (some "sales") || (some (5 : ℚ) : Option ℚ).isNone) = true ∧
      Sqlite.createTransaction 1 { type := some "income", category := some "sales",
                                   base := some 5 } sqDB1 = .error .missingFields) ∧
    (sqDB1.getSettings 1 = some sqSettings15 ∧
      Sqlite.createTransaction 1 { date := some "2024-01-02", type := some "transfer",
                                   category := some "misc", base := some 10 } sqDB1 =
        .error .checkViolation) ∧
    (Flat.createTransaction "A" {} "t0" 0 flDB0 =
      .error (.badRequest "date, type, amount required")) ∧
    (Flat.createTransaction "A" { date := some "2024-01-02", type := some "transfer",
                                  amount := some 10 } "t8" 9 flDB0 =
      .error (.badRequest "type must be income or expense")) ∧
    (∃ db2 t, Flat.createTransaction "A" { date := some "2024-01-02",
                                           type := some "income",
                                           amount := some 500 } "t7" 9 flDB0 =
      .ok (db2, t)) := by
  refine ⟨⟨by decide, ?_⟩, ⟨by decide, ?_⟩, ?_, ?_, ?_⟩
  · exact C7_amended.1 1 _ sqDB1 (by decide)
  · exact C7_amended.2.1 1 _ sqDB1 sqSettings15 "transfer" (by decide) rfl (by decide)
      (by decide) (by decide) (by decide) (by decide) (by decide)
  · exact C7_amended.2.2.1 "A" {} "t0" 0 flDB0 (by decide)
  · exact C7_amended.2.2.2.1 "A" _ "t8" 9 flDB0 "transfer" rfl (by decide) (by decide)
      (by decide) (by decide) (by decide)
  · exact C7_amended.2.2.2.2 "A" _ "t7" 9 flDB0 (by decide) (by decide) (Or.inl rfl)

def c6wRow : Sqlite.Debt :=
  { id := 1, user_id := 1, date := "2024-01-10", employee := "E", kind := "repay",
    amount := 70, delta := -70, notes := none, created_at := 1 }

def c6wDB : Sqlite.DB := { sqDB1 with debts := [c6wRow], debtSeq := 2, now := 2 }

def c6w2Row : Sqlite.Debt := { sqDebt1 with kind := "repay", delta := -100 }

def c6w2DB : Sqlite.DB := { sqDB2 with debts := [c6w2Row] }

/-- Claim C6 (witness): concrete sqlite debt create and update runs (the
supplied delta 999 and 5 are discarded; -70 and -100 are derived), and a
concrete flat-file verbatim merge. -/
theorem C6_amended_witness :
    (Sqlite.createDebt 1 { date := some "2024-01-10", employee := some "E",
                           kind := some "repay", amount := some 70,
                           delta := some 999 } sqDB1 =
      .ok (c6wDB, c6wRow) ∧
      (c6wRow.amount = (some (70 : ℚ) : Option ℚ).getD 0 ∧
       c6wRow.delta = (if c6wRow.kind == "advance" then c6wRow.amount else -c6wRow.amount) ∧
       c6wDB.debts = sqDB1.debts ++ [c6wRow])) ∧
    (sqDB2.debts.find? (fun r => r.id == 1 && r.user_id == 1) = some sqDebt1 ∧
      Sqlite.updateDebt 1 1 { kind := some "repay", delta := some 5 } sqDB2 =
        .ok (c6w2DB, c6w2Row) ∧
      c6w2Row ∈ c6w2DB.debts ∧
      (c6w2Row.kind = "repay" ∧ c6w2Row.amount = 100 ∧
       c6w2Row.delta = (if c6w2Row.kind == "advance" then c6w2Row.amount
         else -c6w2Row.amount))) ∧
    (flDB6.debts.findIdx? (fun x => x.id == "d1") = some 0 ∧
      flDB6.debts[0]? = some flDebtD1 ∧
      Flat.updateDebt "B" "d1" { delta := some (-5), amount := some 100 } flDB6 =
        .ok ({ flDB6 with
                 debts := flDB6.debts.set 0 (Flat.mergeDebt flDebtD1
                   { delta := some (-5), amount := some 100 }) },
             Flat.mergeDebt flDebtD1 { delta := some (-5), amount := some 100 })) := by
  have hev1 : Sqlite.createDebt 1 { date := some "2024-01-10", employee := some "E",
                                    kind := some "repay", amount := some 70,
                                    delta := some 999 } sqDB1 =
      .ok (c6wDB, c6wRow) := by decide
  have hev2 : Sqlite.updateDebt 1 1 { kind := some "repay", delta := some 5 } sqDB2 =
      .ok (c6w2DB, c6w2Row) := by decide
  have hmem : c6w2Row ∈ c6w2DB.debts := by simp [c6w2DB]
  refine ⟨⟨hev1, ?_⟩, ⟨by decide, hev2, hmem, ?_⟩, ?_, ?_, ?_⟩
  · exact C6_amended.1 1 _ sqDB1 c6wDB c6wRow hev1
  · exact C6_amended.2.1 1 1 _ sqDB2 c6w2DB c6w2Row sqDebt1 (by decide) hev2 c6w2Row
      hmem rfl rfl
  · decide
  · decide
  · exact (C6_amended.2.2.2 "B" "d1" _ flDB6 0 flDebtD1 (by decide) (by decide)).1
